import Mathlib

/-!
Verification development for the tappy-chat repository (RST EPOS "Tappy Brain"
chatbot server). The repository contains several near-duplicate iterations of
the same Express server; the claims reference three of them:

* the v15.1c iteration of `server.js` (ranked sales-FAQ search, yes/no
  branching with id, title and URL resolution, in-memory per-cookie sessions);
* the v15.2 iteration of `server.js` (same pipeline, file-backed sessions,
  id-only branch resolution, inlined weighted search);
* the v14.6 iteration (`src/unnamed/part_006`) and the v13.x iterations
  (`src/unnamed/part_005`, lead capture, and the support agent of the first
  `server.js` section).

All definitions are shallow embeddings translated from the JavaScript source.
JavaScript strings are modelled as `String`, string functions are modelled by
structurally recursive functions over `List Char` so that every definition
evaluates inside the kernel. `toLowerCase`/`trim` are modelled for the ASCII
range actually used by the corpus and queries.
-/

/-! ### JavaScript string primitives -/

/-- Model of JavaScript `String.prototype.toLowerCase` (ASCII range). -/
def lowerStr (s : String) : String := String.mk (s.toList.map Char.toLower)

/-- Whitespace-trimming on a character list, from both ends. -/
def trimList (l : List Char) : List Char :=
  ((l.dropWhile Char.isWhitespace).reverse.dropWhile Char.isWhitespace).reverse

/-- Model of JavaScript `String.prototype.trim`. -/
def trimStr (s : String) : String := String.mk (trimList s.toList)

/-- The `message.toLowerCase().trim()` idiom used throughout the server. -/
def lowTrim (s : String) : String := trimStr (lowerStr s)

/-- Substring search on character lists (helper for `strContains`). -/
def containsSub (pat : List Char) : List Char → Bool
  | [] => pat.isEmpty
  | c :: rest => pat.isPrefixOf (c :: rest) || containsSub pat rest

/-- Model of JavaScript `String.prototype.includes`; in particular every
string contains the empty string. -/
def strContains (s pat : String) : Bool := containsSub pat.toList s.toList

/-- A JavaScript `\w` word character: ASCII letter, digit or underscore. -/
def isWordChar (c : Char) : Bool := c.isAlphanum || c = '_'

/-- Model of `.replace(/[^\w\s]/g, "")`: keep word characters and whitespace. -/
def stripNonWord (s : String) : String :=
  String.mk (s.toList.filter (fun c => isWordChar c || c.isWhitespace))

/-- The `normalise` helper of the v15.x handlers:
`(t || "").toLowerCase().replace(/[^\w\s]/g, "").trim()`. -/
def normalise (t : String) : String := trimStr (stripNonWord (lowerStr t))

/-- Maximal runs of non-whitespace characters: the non-empty pieces produced
by JavaScript `split(/\s+/)`. Pieces of length at most 2 are discarded by all
callers, which also discards the possible leading empty piece. -/
def wordRuns : List Char → List (List Char)
  | [] => []
  | c :: rest =>
    if c.isWhitespace then wordRuns rest
    else
      match wordRuns rest with
      | [] => [[c]]
      | w :: ws =>
        match rest with
        | [] => [[c]]
        | d :: _ => if d.isWhitespace then [c] :: w :: ws else (c :: w) :: ws

/-- The query tokens used for scoring:
`query.split(/\s+/).filter((w) => w.length > 2)`. -/
def queryWords (query : String) : List (List Char) :=
  (wordRuns query.toList).filter (fun w => decide (2 < w.length))

/-- True when the character at index `i` exists and is a word character. -/
def wordCharAt (l : List Char) (i : Nat) : Bool :=
  match l.get? i with
  | some c => isWordChar c
  | none => false

/-- Word-character-ness of the character just before position `i`. -/
def prevIsWord (l : List Char) (i : Nat) : Bool :=
  match i with
  | 0 => false
  | j + 1 => wordCharAt l j

/-- The regex `\b` word boundary at position `i` of `l`. -/
def boundaryAt (l : List Char) (i : Nat) : Bool :=
  prevIsWord l i != wordCharAt l i

/-- The pattern `w` occurs literally at index `i` of `text` with word
boundaries on both sides, i.e. the regex `\bw\b` matches at `i`. Query words
are matched literally; regex metacharacters inside a query word are not
modelled. -/
def matchAt (text w : List Char) (i : Nat) : Bool :=
  decide ((text.drop i).take w.length = w) &&
    boundaryAt text i && boundaryAt text (i + w.length)

/-- Fuel-driven left-to-right non-overlapping scan, as performed by
`text.match(new RegExp("\\b" + w + "\\b", "g"))`. -/
def countOccAux (text w : List Char) : Nat → Nat → Nat
  | _, 0 => 0
  | i, fuel + 1 =>
    if text.length < i + w.length then 0
    else if matchAt text w i then 1 + countOccAux text w (i + w.length) fuel
    else countOccAux text w (i + 1) fuel

/-- Number of whole-word occurrences of `w` in `text`. -/
def countOcc (text w : List Char) : Nat := countOccAux text w 0 (text.length + 1)

/-! ### FAQ data model (faqs_sales.json records after loading) -/

/-- The `options` object of a branch descriptor. A missing or empty string is
falsy in JavaScript and is treated as an unanswerable direction. -/
structure BranchOpts where
  yes : Option String
  no : Option String
deriving DecidableEq

/-- The optional `next` branch of a sales FAQ record. -/
structure NextBranch where
  question : String
  options : Option BranchOpts
deriving DecidableEq

/-- A loaded sales FAQ record. The loader stringifies `id` and guarantees a
truthy `title`; `intro` defaults to the empty string and `steps` to a list. -/
structure Faq where
  id : String
  title : String
  intro : String
  steps : List String
  next : Option NextBranch
  link : Option String
deriving DecidableEq

/-- The search haystack `[title, intro, ...steps].join(" ").toLowerCase()`. -/
def faqText (f : Faq) : String :=
  lowerStr (String.intercalate " " (f.title :: f.intro :: f.steps))

/-- Sum of a list of naturals (scores are accumulated additively). -/
def natSum (l : List Nat) : Nat := l.foldl (· + ·) 0

/-- The weighted score of one record against a lowercased trimmed query
(v15.1c `findSalesMatches`, identical inline in v15.2 and in v14.6):
exact title equality `+10`, haystack phrase containment `+6`, and `+2` per
whole-word occurrence of each query token longer than 2 characters. -/
def scoreFaq (f : Faq) (query : String) : Nat :=
  (if lowerStr f.title == query then 10 else 0) +
    (if strContains (faqText f) query then 6 else 0) +
    2 * natSum ((queryWords query).map (fun w => countOcc (faqText f).toList w))

/-- All records paired with their score, keeping only scores `≥ 6`
(the `.filter((r) => r.score >= 6)` threshold), in corpus order. -/
def scoredCandidates (faqs : List Faq) (query : String) : List (Faq × Nat) :=
  (faqs.map (fun f => (f, scoreFaq f query))).filter (fun r => decide (6 ≤ r.2))

/-- Stable descending insertion by score: `x` is placed before the first
element whose score is at most the score of `x`. -/
def insertScored (x : Faq × Nat) : List (Faq × Nat) → List (Faq × Nat)
  | [] => [x]
  | y :: ys => if y.2 ≤ x.2 then x :: y :: ys else y :: insertScored x ys

/-- Stable sort by descending score, the extensional behaviour of the
JavaScript `.sort((a, b) => b.score - a.score)` (`Array.prototype.sort` is
specified stable). -/
def sortScoredDesc (l : List (Faq × Nat)) : List (Faq × Nat) :=
  l.foldr insertScored []

/-- The v15.1c weighted search `findSalesMatches` (`server.js` 734-761):
lowercase and trim the message, return nothing for an empty query, otherwise
score every record, keep scores `≥ 6` and sort by descending score. -/
def findSalesMatches (faqs : List Faq) (message : String) : List (Faq × Nat) :=
  if lowTrim message == "" then []
  else sortScoredDesc (scoredCandidates faqs (lowTrim message))

/-! ### v15.1c rendering and chat handler (`server.js` 767-881) -/

/-- A disambiguation pill option: `{ label: m.title, index: i + 1 }`. -/
structure OptionItem where
  label : String
  index : Nat
deriving DecidableEq

/-- A v15.1c reply payload: a structured yes/no prompt, a plain HTML string,
or a structured options list. Each constructor corresponds to one kind of
return value of the JavaScript handler. -/
inductive Reply where
  | yesno (title intro steps question : String)
  | text (html : String)
  | options (intro : String) (opts : List OptionItem)
deriving DecidableEq

/-- The v15.1c session record; the handler reads and writes only the
`currentId` field of the per-cookie session object. -/
structure Session where
  currentId : Option String
deriving DecidableEq

/-- Numbered step list joined with `<br>`. -/
def renderSteps (steps : List String) : String :=
  String.intercalate "<br>" (steps.enum.map (fun p => toString (p.1 + 1) ++ ". " ++ p.2))

/-- `entry.link || "#"`. -/
def linkOr (f : Faq) : String :=
  match f.link with
  | some l => if l == "" then "#" else l
  | none => "#"

/-- The no-match fallback reply text (identical in v14.6, v15.1c and v15.2). -/
def noMatchText : String :=
  "🙁 I couldn’t find an exact match.<br><br>Would you like to <a href=\"/contact-us.html\">contact sales</a> or <a href=\"/faqs.html\">browse FAQs</a>?"

/-- The reprompt reply: the branch question followed by `" (Yes or No)"`. -/
def repromptText (q : String) : String := q ++ " (Yes or No)"

/-- The external-link branch reply of the v15.x handlers. -/
def branchLinkText (u : String) : String :=
  "👉 <a href=\"" ++ u ++ "\" target=\"_blank\">View related page</a>"

/-- The intro line of every disambiguation reply. -/
def optionsIntro : String := "🔍 I found several possible matches:"

/-- v15.1c `showFAQ` (`server.js` 767-786): a structured yes/no payload when
`next.question` is truthy, otherwise a rendered HTML string whose tail is the
branch question prompt (if a `next` exists) or a "Learn more" link. -/
def showFAQ (e : Faq) : Reply :=
  match e.next with
  | some nb =>
    if nb.question == "" then
      Reply.text ("📘 <strong>" ++ e.title ++ "</strong><br>" ++ e.intro ++ "<br><br>" ++
        renderSteps e.steps ++ "<br><br>" ++ nb.question ++ " (Yes or No)")
    else Reply.yesno e.title e.intro (renderSteps e.steps) nb.question
  | none =>
    Reply.text ("📘 <strong>" ++ e.title ++ "</strong><br>" ++ e.intro ++ "<br><br>" ++
      renderSteps e.steps ++ "<br><br>👉 <a href=\"" ++ linkOr e ++ "\">Learn more</a>")

/-- Classification of the user reply against the branch options: a reply
containing `"yes"` selects `options.yes`, else one containing `"no"` selects
`options.no`, anything else selects nothing. -/
def branchTarget (lower : String) (o : BranchOpts) : Option String :=
  if strContains lower "yes" then o.yes
  else if strContains lower "no" then o.no
  else none

/-- v15.1c branch-target resolution (`server.js` 808-834): id equality on the
trimmed target first, then case-insensitive trimmed title equality, then an
external-link reply when the unresolved target contains `".html"`, otherwise
a reprompt with the branch question. -/
def resolveTarget (faqs : List Faq) (question t : String) (s : Session) :
    Reply × Session :=
  match faqs.find? (fun f => f.id == trimStr t) with
  | some n => (showFAQ n, ⟨some n.id⟩)
  | none =>
    match faqs.find? (fun f => trimStr (lowerStr f.title) == lowerStr (trimStr t)) with
    | some n => (showFAQ n, ⟨some n.id⟩)
    | none =>
      if strContains (trimStr t) ".html" then
        (Reply.text (branchLinkText (trimStr t)), s)
      else (Reply.text (repromptText question), s)

/-- v15.1c step 1 (`server.js` 799-837): the yes/no branch block. The result
is `none` exactly when control falls through to fresh matching: no current
record, no `next.options`, an unclassified reply, or a falsy branch target. -/
def branchStep (faqs : List Faq) (lower : String) (s : Session) :
    Option (Reply × Session) :=
  match s.currentId with
  | none => none
  | some cid =>
    match faqs.find? (fun f => f.id == cid) with
    | none => none
    | some cur =>
      match cur.next with
      | none => none
      | some nb =>
        match nb.options with
        | none => none
        | some opts =>
          match branchTarget lower opts with
          | none => none
          | some t => if t == "" then none else some (resolveTarget faqs nb.question t s)

/-- v15.1c steps 3-6 (`server.js` 848-880): weighted search, then no-match
fallback, high-confidence auto-select (`top/second ≥ 1.9`, modelled exactly
as `10*top ≥ 19*second` which agrees with the floating-point comparison for
all integer scores of this size, or `top ≥ 12`), single match, or the pill
options list capped at 8. -/
def scoredStep (faqs : List Faq) (message : String) (s : Session) :
    Reply × Session :=
  match findSalesMatches faqs message with
  | [] => (Reply.text noMatchText, s)
  | [a] => (showFAQ a.1, ⟨some a.1.id⟩)
  | a :: b :: rest =>
    if 19 * b.2 ≤ 10 * a.2 ∨ 12 ≤ a.2 then (showFAQ a.1, ⟨some a.1.id⟩)
    else
      (Reply.options optionsIntro
        (((a :: b :: rest).take 8).enum.map (fun p => ⟨p.2.1.title, p.1 + 1⟩)), s)

/-- v15.1c step 2 then steps 3-6 (`server.js` 840-880): exact normalised
title match short-circuits the weighted search. -/
def freshStep (faqs : List Faq) (message lower : String) (s : Session) :
    Reply × Session :=
  match faqs.find? (fun f => normalise f.title == normalise lower) with
  | some exact => (showFAQ exact, ⟨some exact.id⟩)
  | none => scoredStep faqs message s

/-- The v15.1c chat handler `handleSalesFAQ` (`server.js` 793-881), as a
function of the immutable corpus, the incoming message and the session of
the calling client; it returns the reply and the updated session. -/
def handleSalesFAQ (faqs : List Faq) (message : String) (s : Session) :
    Reply × Session :=
  match branchStep faqs (lowTrim message) s with
  | some out => out
  | none => freshStep faqs message (lowTrim message) s

/-! ### v15.2 chat handler (`server.js` 506-614)

The v15.2 iteration keeps the same scoring pipeline but: stores sessions in
a file-backed map keyed by the cookie id, resolves branch targets by id only
(no title fallback, no trim, falling through on an unresolved non-URL
target), inlines the weighted search without the empty-query guard, and
renders plain records with a "Learn more" link only. -/

/-- A v15.2 reply payload; options carry labels only. -/
inductive Reply152 where
  | yesno (title intro steps question : String)
  | text (html : String)
  | options (intro : String) (labels : List String)
deriving DecidableEq

/-- v15.2 `showFAQ` (`server.js` 506-521). -/
def showFAQ152 (e : Faq) : Reply152 :=
  match e.next with
  | some nb =>
    if nb.question == "" then
      Reply152.text ("📘 <strong>" ++ e.title ++ "</strong><br>" ++ e.intro ++ "<br><br>" ++
        renderSteps e.steps ++ "<br><br>👉 <a href=\"" ++ linkOr e ++ "\">Learn more</a>")
    else Reply152.yesno e.title e.intro (renderSteps e.steps) nb.question
  | none =>
    Reply152.text ("📘 <strong>" ++ e.title ++ "</strong><br>" ++ e.intro ++ "<br><br>" ++
      renderSteps e.steps ++ "<br><br>👉 <a href=\"" ++ linkOr e ++ "\">Learn more</a>")

/-- The v15.2 session store: `getSession` returns `sessions[id] || {}`, so
the store is modelled as a total map into session records. -/
def updateStore (store : String → Session) (sid : String) (cid : Option String) :
    String → Session :=
  fun j => if j == sid then ⟨cid⟩ else store j

/-- v15.2 branch block (`server.js` 531-554): id-equality resolution on the
un-trimmed target, then an external-link reply when the target contains
`".html"`; everything else (including an unresolved target) falls through. -/
def branchStep152 (faqs : List Faq) (lower : String) (sid : String)
    (store : String → Session) : Option (Reply152 × (String → Session)) :=
  match (store sid).currentId with
  | none => none
  | some cid =>
    match faqs.find? (fun f => f.id == cid) with
    | none => none
    | some cur =>
      match cur.next with
      | none => none
      | some nb =>
        match nb.options with
        | none => none
        | some opts =>
          match branchTarget lower opts with
          | none => none
          | some t =>
            if t == "" then none
            else
              match faqs.find? (fun f => f.id == t) with
              | some n => some (showFAQ152 n, updateStore store sid (some n.id))
              | none =>
                if strContains t ".html" then some (Reply152.text (branchLinkText t), store)
                else none

/-- v15.2 steps 3-6 (`server.js` 566-613): the weighted search is inlined
over `lower` with no empty-query guard, so an empty query gives every record
the `+6` phrase bonus (`"".includes` is always true in JavaScript). -/
def scoredStep152 (faqs : List Faq) (lower : String) (sid : String)
    (store : String → Session) : Reply152 × (String → Session) :=
  match sortScoredDesc (scoredCandidates faqs lower) with
  | [] => (Reply152.text noMatchText, store)
  | [a] => (showFAQ152 a.1, updateStore store sid (some a.1.id))
  | a :: b :: rest =>
    if 19 * b.2 ≤ 10 * a.2 ∨ 12 ≤ a.2 then
      (showFAQ152 a.1, updateStore store sid (some a.1.id))
    else
      (Reply152.options optionsIntro (((a :: b :: rest).take 8).map (fun m => m.1.title)),
        store)

/-- The v15.2 chat handler `handleSalesFAQ` (`server.js` 527-614). -/
def handleSalesFAQ152 (faqs : List Faq) (message : String) (sid : String)
    (store : String → Session) : Reply152 × (String → Session) :=
  match branchStep152 faqs (lowTrim message) sid store with
  | some out => out
  | none =>
    match faqs.find? (fun f => normalise f.title == normalise (lowTrim message)) with
    | some exact => (showFAQ152 exact, updateStore store sid (some exact.id))
    | none => scoredStep152 faqs (lowTrim message) sid store

/-! ### v14.6 chat handler (`src/unnamed/part_006` 159-237) -/

/-- The v14.6 session record: the handler writes `currentId` on branch
advance and exact/single match, and `awaitingChoice`/`lastFaqList` on a
multi-match reply. -/
structure Session146 where
  currentId : Option String
  awaitingChoice : Bool
  lastFaqList : Option (List Faq)
deriving DecidableEq

/-- A v14.6 reply payload: every FAQ rendering is a plain string; only the
options reply is structured. -/
inductive Reply146 where
  | text (html : String)
  | options (intro : String) (opts : List OptionItem)
deriving DecidableEq

/-- v14.6 `showFAQ` (`part_006` 159-167): always a string; the tail is the
branch question prompt when a `next` exists, else a "Learn more" link. -/
def showFAQ146 (e : Faq) : String :=
  let nextPrompt :=
    match e.next with
    | some nb => "<br><br>" ++ nb.question ++ " (Yes or No)"
    | none => "<br><br>👉 <a href=\"" ++ linkOr e ++ "\">Learn more</a>"
  "📘 <strong>" ++ e.title ++ "</strong><br>" ++ e.intro ++ "<br><br>" ++
    renderSteps e.steps ++ nextPrompt

/-- v14.6 branch advance (`part_006` 183-190): `s.currentId` is set to the
raw option value before the target is looked up; when the lookup fails,
`showFAQ(undefined)` throws a `TypeError`, modelled as a `none` reply with
the already-mutated session. -/
def advance146 (faqs : List Faq) (target : Option String) (s : Session146) :
    Option Reply146 × Session146 :=
  let s' := { s with currentId := target }
  match target with
  | none => (none, s')
  | some nid =>
    match faqs.find? (fun f => f.id == nid) with
    | some e => (some (Reply146.text (showFAQ146 e)), s')
    | none => (none, s')

/-- v14.6 fresh matching (`part_006` 197-236): exact lowercase title match,
then the weighted search; one match renders it, several set
`awaitingChoice`/`lastFaqList` and return up to 8 pill options, none gives
the no-match fallback. -/
def fresh146 (faqs : List Faq) (message lower : String) (s : Session146) :
    Option Reply146 × Session146 :=
  match faqs.find? (fun f => !(f.title == "") && lowerStr f.title == lower) with
  | some e => (some (Reply146.text (showFAQ146 e)), { s with currentId := some e.id })
  | none =>
    match (findSalesMatches faqs message).map Prod.fst with
    | [] => (some (Reply146.text noMatchText), s)
    | [e] => (some (Reply146.text (showFAQ146 e)), { s with currentId := some e.id })
    | e1 :: e2 :: rest =>
      (some (Reply146.options optionsIntro
          (((e1 :: e2 :: rest).take 8).enum.map (fun p => ⟨p.2.title, p.1 + 1⟩))),
        { s with awaitingChoice := true, lastFaqList := some (e1 :: e2 :: rest) })

/-- The v14.6 chat handler `handleSalesFAQ` (`part_006` 174-237). A `none`
reply models a thrown `TypeError`; the session component is the state at the
moment of return or throw. -/
def handleSalesFAQ146 (faqs : List Faq) (message : String) (s : Session146) :
    Option Reply146 × Session146 :=
  match s.currentId with
  | none => fresh146 faqs message (lowTrim message) s
  | some cid =>
    match faqs.find? (fun f => f.id == cid) with
    | none => fresh146 faqs message (lowTrim message) s
    | some cur =>
      match cur.next with
      | none => fresh146 faqs message (lowTrim message) s
      | some nb =>
        match nb.options with
        | none => fresh146 faqs message (lowTrim message) s
        | some opts =>
          if strContains (lowTrim message) "yes" then advance146 faqs opts.yes s
          else if strContains (lowTrim message) "no" then advance146 faqs opts.no s
          else (some (Reply146.text (repromptText nb.question)), s)

/-! ### v13.x support agent (`server.js` 246-290, `src/unnamed/part_005` 240-259)

The v13.2 route dispatches support messages to `handleSupportAgent(message)`
with no session argument; the agent grabs
`sessions[Object.keys(sessions)[0]]` — the first-inserted session, whatever
client the request came from (the code comment calls it a "basic per-IP
session reference"). The session store is modelled as an association list to
preserve key insertion order. `findSupportMatches` is taken from the v13.0
iteration (`part_005`), the adjacent iteration that defines it. -/

/-- A support FAQ entry; `questions`/`answers` are optional because entries
missing either field are skipped. An empty `title` models a falsy one. -/
structure SupportFaq where
  title : String
  questions : Option (List String)
  answers : Option (List String)
  url : Option String
deriving DecidableEq

/-- A support search result `{title, url, answers}`. -/
structure SupportMatch where
  title : String
  url : Option String
  answers : List String
deriving DecidableEq

/-- Number of query words (length `> 2`) occurring in the question `q`. -/
def overlapCount (words : List (List Char)) (q : String) : Nat :=
  ((wordRuns (lowerStr q).toList).filter (fun w => words.contains w)).length

/-- v13.0 `findSupportMatches` (`part_005` 240-259): an entry matches when at
least one of its questions shares a query word; at most 5 results. -/
def findSupportMatches130 (faqsS : List SupportFaq) (message : String) :
    List SupportMatch :=
  let words := queryWords (lowerStr message)
  ((faqsS.filterMap (fun entry =>
    match entry.questions, entry.answers with
    | some qs, some ans =>
      if 0 < (qs.filter (fun q => decide (0 < overlapCount words q))).length then
        some ⟨if entry.title == "" then qs.headD "" else entry.title, entry.url, ans⟩
      else none
    | _, _ => none))).take 5

/-- The two session fields the v13.2 support agent reads and writes. -/
structure SupportSession where
  awaitingFaqChoice : Bool
  lastFaqList : Option (List SupportMatch)
deriving DecidableEq

/-- `/^\d+$/.test(t)`: non-empty and all decimal digits. -/
def isDigits (t : String) : Bool :=
  !t.toList.isEmpty && t.toList.all Char.isDigit

/-- `parseInt` on an all-digits string. -/
def digitsToNat (t : String) : Nat :=
  t.toList.foldl (fun acc c => 10 * acc + (c.toNat - 48)) 0

/-- The article rendering of the v13.2 support agent. -/
def articleText (m : SupportMatch) : String :=
  "📘 *" ++ m.title ++ "*<br>" ++ String.intercalate "<br>" m.answers ++
    "<br><br>Did that resolve your issue?"

/-- The numbered multi-match rendering of the v13.2 support agent. The ASCII
apostrophe of the source contraction is written as U+2019 here. -/
def supportListText (ms : List SupportMatch) : String :=
  "🔍 I found several possible matches:<br><br>" ++
    String.intercalate "<br>" (ms.enum.map (fun p => toString (p.1 + 1) ++ ". " ++ p.2.title)) ++
    "<br><br>Please reply with the number of the article you’d like to view."

/-- The v13.2 no-match support reply. -/
def notSureText : String :=
  "🤔 I’m not sure about that one — can you describe the issue in more detail?"

/-- The v13.2 support agent `handleSupportAgent` (`server.js` 246-290). It
takes no session identifier: it always operates on the first entry of the
session store. A `none` reply models the `TypeError` thrown when the store
is empty. -/
def handleSupportAgent132 (faqsS : List SupportFaq) (message : String)
    (store : List (String × SupportSession)) :
    Option String × List (String × SupportSession) :=
  match store with
  | [] => (none, [])
  | (k0, s0) :: rest =>
    let found := findSupportMatches130 faqsS message
    let chosen : Option SupportMatch :=
      if s0.awaitingFaqChoice && isDigits (trimStr message) then
        match digitsToNat (trimStr message) with
        | 0 => none
        | j + 1 => (s0.lastFaqList.getD []).get? j
      else none
    match chosen with
    | some entry => (some (articleText entry), (k0, ⟨false, none⟩) :: rest)
    | none =>
      match found with
      | [m] => (some (articleText m), (k0, ⟨false, s0.lastFaqList⟩) :: rest)
      | [] => (some notSureText, (k0, s0) :: rest)
      | _ => (some (supportListText found), (k0, ⟨true, some found⟩) :: rest)

/-! ### v13.0 lead capture (`src/unnamed/part_005` 74, 213-235) -/

/-- The lead-capture step stored in `s.step`. -/
inductive LeadStep where
  | none
  | name
  | company
  | email
  | comments
deriving DecidableEq

/-- The partial lead record `s.lead`. -/
structure Lead where
  name : Option String
  company : Option String
  email : Option String
  comments : Option String
deriving DecidableEq

/-- The lead-capture fragment of a v13.0 session. -/
structure LeadSession where
  step : LeadStep
  lead : Lead
deriving DecidableEq

/-- The result of one lead-capture turn: a prompt text, or completion (the
route then logs the lead and resets the step). -/
inductive LCResult where
  | prompt (text : String)
  | complete
deriving DecidableEq

/-- A character allowed by `[^\s@]`: neither whitespace nor `@`. -/
def emailChar (c : Char) : Bool := !c.isWhitespace && c != '@'

/-- v13.0 `isValidEmail` (`part_005` 74): the trimmed input must match
`/^[^\s@]+@[^\s@]+\.[^\s@]+$/` — exactly one `@`, no whitespace, a non-empty
local part, and a domain part containing a dot with non-empty pieces on both
sides. -/
def isValidEmail (email : String) : Bool :=
  let t := trimList email.toList
  match t.splitOn '@' with
  | [a, r] =>
    !a.isEmpty && a.all emailChar && !r.isEmpty && r.all emailChar &&
      (r.drop 1).dropLast.contains '.'
  | _ => false

/-- Lead-capture prompts, verbatim from `part_005`. -/
def companyPrompt : String := "🏢 Thanks! What’s your *company name*?"

/-- The email-step prompt. -/
def emailPrompt : String := "📧 And what’s the best *email address* to send details to?"

/-- The invalid-email reprompt. -/
def invalidEmailText : String := "⚠️ That email doesn’t look right — please re-enter it."

/-- The comments-step prompt. -/
def commentsPrompt : String := "📝 Great — any specific notes or requirements for your quote?"

/-- The default-case prompt. -/
def continueText : String := "💬 Please continue…"

/-- v13.0 `continueLeadCapture` (`part_005` 213-235): a linear four-step
state machine; each step trims and stores the input; the email step
validates first and re-prompts without advancing on failure; the comments
step stores and signals completion. -/
def continueLeadCapture (s : LeadSession) (message : String) :
    LeadSession × LCResult :=
  match s.step with
  | LeadStep.name =>
    (⟨LeadStep.company, { s.lead with name := some (trimStr message) }⟩,
      LCResult.prompt companyPrompt)
  | LeadStep.company =>
    (⟨LeadStep.email, { s.lead with company := some (trimStr message) }⟩,
      LCResult.prompt emailPrompt)
  | LeadStep.email =>
    if !isValidEmail message then (s, LCResult.prompt invalidEmailText)
    else
      (⟨LeadStep.comments, { s.lead with email := some (trimStr message) }⟩,
        LCResult.prompt commentsPrompt)
  | LeadStep.comments =>
    (⟨LeadStep.comments, { s.lead with comments := some (trimStr message) }⟩,
      LCResult.complete)
  | LeadStep.none => (s, LCResult.prompt continueText)

/-- Position of a step in the lead-capture pipeline, for the linearity
statement. -/
def stepRank : LeadStep → Nat
  | LeadStep.none => 0
  | LeadStep.name => 1
  | LeadStep.company => 2
  | LeadStep.email => 3
  | LeadStep.comments => 4

/-! ### Claim-words predicate and concrete fixtures -/

/-- Predicate written from the words of claim C1 rather than from the code, used
only to state its counterexample: on a branch turn the reply must be an
`Advance` — the rendering of some corpus record, or an external URL/link
reply (recognisable by its `👉 <a href=` head) — or a `Reprompt` carrying
the branch question. -/
def claimC1Outcome (faqs : List Faq) (question : String) (r : Reply) : Bool :=
  faqs.any (fun f => r == showFAQ f) || (r == Reply.text (repromptText question)) ||
    (match r with
     | Reply.text h => "👉 <a href=".toList.isPrefixOf h.toList
     | _ => false)

/-- A record with a yes/no branch whose targets resolve by id. -/
def faqC1branch : Faq :=
  ⟨"1", "Setup Printer", "", ["Plug it in"],
    some ⟨"Need more help?", some ⟨some "2", some "3"⟩⟩, none⟩

/-- The record the `yes` target of `faqC1branch` resolves to. -/
def faqC1next : Faq := ⟨"2", "Advanced Printer Care", "", ["Open the lid"], none, none⟩

/-- The two-record corpus for the C1 scenarios. -/
def faqsC1 : List Faq := [faqC1branch, faqC1next]

/-- A record whose normalised title is "abc" but whose score against the
query "abc" is 0 (no exact title, no phrase hit, no whole-word hit). -/
def faqDotted : Faq := ⟨"9", "a.b.c", "", ["zz"], none, none⟩

/-- A single-record corpus for the C3 witness. -/
def faqHardware : Faq := ⟨"7", "POS Hardware", "", ["Till info"], none, none⟩

/-- Scores 12 against the query "voucher setup". -/
def faqVoucher : Faq :=
  ⟨"10", "Gift Vouchers", "", ["voucher setup", "voucher rules"], none, none⟩

/-- Scores 6 against the query "voucher setup". -/
def faqPrinterSetup : Faq :=
  ⟨"20", "Printer Setup", "", ["setup the printer", "run setup"], none, none⟩

/-- Corpus realising the high-confidence auto-select scenario of C4. -/
def faqsC4 : List Faq := [faqVoucher, faqPrinterSetup]

/-- Scores 6 against the query "setup guide". -/
def faqAlphaSetup : Faq :=
  ⟨"31", "Alpha", "", ["setup one", "setup two", "setup three"], none, none⟩

/-- Also scores 6 against the query "setup guide". -/
def faqBetaSetup : Faq :=
  ⟨"32", "Beta", "", ["setup four", "setup five", "setup six"], none, none⟩

/-- Corpus producing a two-entry disambiguation list for "setup guide". -/
def faqsC8 : List Faq := [faqAlphaSetup, faqBetaSetup]

/-- A branch record for the C6 scenarios. -/
def faqC6branch : Faq :=
  ⟨"1", "Card Machines", "", ["Insert the card"],
    some ⟨"Need help with setup?", some ⟨some "2", some "3"⟩⟩, none⟩

/-- A v15.2 store whose every session points at `faqC6branch`. -/
def storeC6 : String → Session := fun _ => ⟨some "1"⟩

/-- A v14.6 session pointing at `faqC6branch`. -/
def sessC6v146 : Session146 := ⟨some "1", false, none⟩

/-- Two plain records for the C7 empty-query scenario. -/
def faqsC7 : List Faq :=
  [⟨"1", "Alpha Beta", "", ["one"], none, none⟩,
   ⟨"2", "Beta Gamma", "", ["two"], none, none⟩]

/-- A v15.2 store with no current record anywhere. -/
def storeIdle : String → Session := fun _ => ⟨none⟩

/-- A support FAQ entry matching "printer". -/
def supPrinterOffline : SupportFaq :=
  ⟨"Printer Offline", some ["printer offline fix"], some ["Restart the print spooler"], none⟩

/-- A second support FAQ entry matching "printer". -/
def supPrinterJam : SupportFaq :=
  ⟨"Printer Jam", some ["printer paper jam"], some ["Open the tray"], none⟩

/-- The support corpus for the C9 scenario. -/
def supportFaqsC9 : List SupportFaq := [supPrinterOffline, supPrinterJam]

/-- A store holding sessions of two distinct clients, in insertion order. -/
def storeC9 : List (String × SupportSession) :=
  [("1.2.3.4", ⟨false, none⟩), ("5.6.7.8", ⟨false, none⟩)]

/-- The support matches found for "printer help" in `supportFaqsC9`. -/
def supportMatchesC9 : List SupportMatch :=
  [⟨"Printer Offline", none, ["Restart the print spooler"]⟩,
   ⟨"Printer Jam", none, ["Open the tray"]⟩]

/-- A branch record whose `yes` target is an external URL. -/
def faqC10 : Faq :=
  ⟨"1", "Gift Cards", "", ["Load value"],
    some ⟨"See the pricing page?", some ⟨some "/pricing.html", some "3"⟩⟩, none⟩

/-- A lead-capture session sitting at the `email` step. -/
def sessEmailStep : LeadSession := ⟨LeadStep.email, ⟨some "Ann", some "Acme", none, none⟩⟩

/-! ### General lemmas about the sorting pipeline -/

theorem mem_insertScored {x y : Faq × Nat} {l : List (Faq × Nat)} :
    y ∈ insertScored x l ↔ y = x ∨ y ∈ l := by
  induction l with
  | nil => simp [insertScored]
  | cons z zs ih =>
    simp only [insertScored]
    split
    · simp [List.mem_cons]
    · simp only [List.mem_cons, ih]
      tauto

theorem pairwise_insertScored {x : Faq × Nat} {l : List (Faq × Nat)}
    (h : l.Pairwise (fun a b => b.2 ≤ a.2)) :
    (insertScored x l).Pairwise (fun a b => b.2 ≤ a.2) := by
  induction l with
  | nil => simp [insertScored]
  | cons z zs ih =>
    rw [List.pairwise_cons] at h
    simp only [insertScored]
    split
    · rename_i hle
      rw [List.pairwise_cons]
      refine ⟨?_, List.pairwise_cons.mpr h⟩
      intro b hb
      rcases List.mem_cons.mp hb with rfl | hb
      · exact hle
      · exact le_trans (h.1 b hb) hle
    · rename_i hgt
      push_neg at hgt
      rw [List.pairwise_cons]
      refine ⟨?_, ih h.2⟩
      intro b hb
      rcases mem_insertScored.mp hb with rfl | hb
      · exact le_of_lt hgt
      · exact h.1 b hb

theorem pairwise_sortScoredDesc (l : List (Faq × Nat)) :
    (sortScoredDesc l).Pairwise (fun a b => b.2 ≤ a.2) := by
  induction l with
  | nil => simp [sortScoredDesc]
  | cons x xs ih =>
    show (insertScored x (sortScoredDesc xs)).Pairwise _
    exact pairwise_insertScored ih

theorem mem_sortScoredDesc {y : Faq × Nat} {l : List (Faq × Nat)} :
    y ∈ sortScoredDesc l ↔ y ∈ l := by
  induction l with
  | nil => simp [sortScoredDesc]
  | cons x xs ih =>
    show y ∈ insertScored x (sortScoredDesc xs) ↔ _
    rw [mem_insertScored, List.mem_cons, ih]

theorem filter_insertScored (x : Faq × Nat) (l : List (Faq × Nat)) (v : Nat) :
    (insertScored x l).filter (fun r => r.2 == v) =
      if x.2 == v then x :: l.filter (fun r => r.2 == v)
      else l.filter (fun r => r.2 == v) := by
  induction l with
  | nil =>
    by_cases hx : x.2 = v
    · simp [insertScored, List.filter_cons, hx]
    · have hx' : (x.2 == v) = false := by simpa using hx
      simp [insertScored, List.filter_cons, hx']
  | cons z zs ih =>
    simp only [insertScored]
    split
    · simp [List.filter_cons]
    · rename_i hgt
      push_neg at hgt
      rw [List.filter_cons, List.filter_cons, ih]
      by_cases hx : x.2 = v
      · have hz : (z.2 == v) = false := by
          have : z.2 ≠ v := by omega
          simpa using this
        simp [hx, hz]
      · have hx' : (x.2 == v) = false := by simpa using hx
        simp [hx']

theorem filter_sortScoredDesc (l : List (Faq × Nat)) (v : Nat) :
    (sortScoredDesc l).filter (fun r => r.2 == v) =
      l.filter (fun r => r.2 == v) := by
  induction l with
  | nil => simp [sortScoredDesc]
  | cons x xs ih =>
    show (insertScored x (sortScoredDesc xs)).filter _ = _
    rw [filter_insertScored, ih, List.filter_cons]

theorem pairwise_findSalesMatches (faqs : List Faq) (msg : String) :
    (findSalesMatches faqs msg).Pairwise (fun a b => b.2 ≤ a.2) := by
  unfold findSalesMatches
  split
  · exact List.Pairwise.nil
  · exact pairwise_sortScoredDesc _

theorem findSalesMatches_of_ne_empty {faqs : List Faq} {msg : String}
    (h : (lowTrim msg == "") = false) :
    findSalesMatches faqs msg = sortScoredDesc (scoredCandidates faqs (lowTrim msg)) := by
  unfold findSalesMatches
  simp [h]

theorem mem_findSalesMatches {faqs : List Faq} {msg : String} {f : Faq} {sc : Nat}
    (h : (f, sc) ∈ findSalesMatches faqs msg) :
    6 ≤ sc ∧ sc = scoreFaq f (lowTrim msg) := by
  unfold findSalesMatches at h
  split at h
  · simp at h
  · rw [mem_sortScoredDesc] at h
    unfold scoredCandidates at h
    rw [List.mem_filter] at h
    obtain ⟨hmem, hsc⟩ := h
    rw [List.mem_map] at hmem
    obtain ⟨g, hgmem, hg⟩ := hmem
    cases hg
    exact ⟨by simpa using hsc, rfl⟩

/-! ### Inversion lemmas for the v15.1c handler -/

theorem showFAQ_ne_options (e : Faq) (i : String) (o : List OptionItem) :
    showFAQ e ≠ Reply.options i o := by
  unfold showFAQ
  split
  · split <;> simp
  · simp

theorem resolveTarget_ne_options (faqs : List Faq) (q t : String) (s : Session)
    (i : String) (o : List OptionItem) :
    (resolveTarget faqs q t s).1 ≠ Reply.options i o := by
  unfold resolveTarget
  split
  · exact showFAQ_ne_options _ _ _
  · split
    · exact showFAQ_ne_options _ _ _
    · split <;> simp

theorem branchStep_ne_options {faqs : List Faq} {lower : String} {s : Session}
    {out : Reply × Session} (h : branchStep faqs lower s = some out)
    (i : String) (o : List OptionItem) : out.1 ≠ Reply.options i o := by
  unfold branchStep at h
  repeat' split at h
  any_goals exact Option.noConfusion h
  injection h with h'
  subst h'
  exact resolveTarget_ne_options _ _ _ _ i o

/-- Inversion of the v15.1c handler at a disambiguation reply: the options
come from the first 8 entries of the weighted search, labelled in order, and
the query is non-empty. -/
theorem handler_options_inv {faqs : List Faq} {msg : String} {s : Session}
    {intro : String} {opts : List OptionItem}
    (h : (handleSalesFAQ faqs msg s).1 = Reply.options intro opts) :
    intro = optionsIntro ∧
      opts = ((findSalesMatches faqs msg).take 8).enum.map
        (fun p => ⟨p.2.1.title, p.1 + 1⟩) ∧
      (lowTrim msg == "") = false := by
  unfold handleSalesFAQ at h
  cases hb : branchStep faqs (lowTrim msg) s with
  | some out =>
    rw [hb] at h
    exact absurd h (branchStep_ne_options hb intro opts)
  | none =>
    rw [hb] at h
    unfold freshStep at h
    cases hf : faqs.find? (fun f => normalise f.title == normalise (lowTrim msg)) with
    | some exact =>
      rw [hf] at h
      exact absurd h (showFAQ_ne_options _ _ _)
    | none =>
      rw [hf] at h
      unfold scoredStep at h
      cases hm : findSalesMatches faqs msg with
      | nil => rw [hm] at h; simp at h
      | cons a tail =>
        have hq : (lowTrim msg == "") = false := by
          by_contra hq'
          have : (lowTrim msg == "") = true := by
            cases hqq : (lowTrim msg == "") with
            | true => rfl
            | false => exact absurd hqq hq'
          have : findSalesMatches faqs msg = [] := by
            unfold findSalesMatches
            simp [this]
          rw [this] at hm
          exact List.noConfusion hm
        cases tail with
        | nil =>
          rw [hm] at h
          simp only at h
          exact absurd h (showFAQ_ne_options _ _ _)
        | cons b rest =>
          rw [hm] at h
          simp only at h
          split at h
          · exact absurd h (showFAQ_ne_options _ _ _)
          · rw [Reply.options.injEq] at h
            exact ⟨h.1.symm, h.2.symm, hq⟩

/-! ### Claim theorems -/

/-- Claim C1 (amended): in the v15.1c handler, for every branch turn — a
session whose current record has `next.options` — with a classified reply
(containing "yes" or "no") whose selected target is a truthy string, branch
resolution is total and follows the order id equality, case-insensitive
trimmed title equality, external link when the target contains ".html",
else a reprompt with the branch question; moreover the updated session
either keeps the previous current id or points at a record of the corpus.
(The unamended claim also covered unclassified replies; those fall through
to fresh matching, see the counterexample.) -/
theorem C1_branch_resolution_total (faqs : List Faq) (msg : String) (s : Session)
    (cid : String) (cur : Faq) (nb : NextBranch) (opts : BranchOpts) (t : String)
    (hcid : s.currentId = some cid)
    (hcur : faqs.find? (fun f => f.id == cid) = some cur)
    (hnext : cur.next = some nb)
    (hopts : nb.options = some opts)
    (ht : branchTarget (lowTrim msg) opts = some t)
    (hne : (t == "") = false) :
    handleSalesFAQ faqs msg s = resolveTarget faqs nb.question t s ∧
    ((∃ n, faqs.find? (fun f => f.id == trimStr t) = some n ∧
        handleSalesFAQ faqs msg s = (showFAQ n, ⟨some n.id⟩)) ∨
      (faqs.find? (fun f => f.id == trimStr t) = none ∧
        ∃ n, faqs.find? (fun f => trimStr (lowerStr f.title) == lowerStr (trimStr t)) = some n ∧
          handleSalesFAQ faqs msg s = (showFAQ n, ⟨some n.id⟩)) ∨
      (faqs.find? (fun f => f.id == trimStr t) = none ∧
        faqs.find? (fun f => trimStr (lowerStr f.title) == lowerStr (trimStr t)) = none ∧
        strContains (trimStr t) ".html" = true ∧
        handleSalesFAQ faqs msg s = (Reply.text (branchLinkText (trimStr t)), s)) ∨
      (faqs.find? (fun f => f.id == trimStr t) = none ∧
        faqs.find? (fun f => trimStr (lowerStr f.title) == lowerStr (trimStr t)) = none ∧
        strContains (trimStr t) ".html" = false ∧
        handleSalesFAQ faqs msg s = (Reply.text (repromptText nb.question), s))) ∧
    ((handleSalesFAQ faqs msg s).2.currentId = s.currentId ∨
      ∃ n ∈ faqs, (handleSalesFAQ faqs msg s).2.currentId = some n.id) := by
  have hb : branchStep faqs (lowTrim msg) s = some (resolveTarget faqs nb.question t s) := by
    unfold branchStep
    simp only [hcid, hcur, hnext, hopts, ht, hne, Bool.false_eq_true, if_false]
  have hh : handleSalesFAQ faqs msg s = resolveTarget faqs nb.question t s := by
    unfold handleSalesFAQ
    rw [hb]
  refine ⟨hh, ?_⟩
  rw [hh]
  unfold resolveTarget
  cases h1 : faqs.find? (fun f => f.id == trimStr t) with
  | some n =>
    refine ⟨Or.inl ⟨n, rfl, rfl⟩, Or.inr ⟨n, List.mem_of_find?_eq_some h1, rfl⟩⟩
  | none =>
    cases h2 : faqs.find? (fun f => trimStr (lowerStr f.title) == lowerStr (trimStr t)) with
    | some n =>
      refine ⟨Or.inr (Or.inl ⟨rfl, n, rfl, rfl⟩),
        Or.inr ⟨n, List.mem_of_find?_eq_some h2, rfl⟩⟩
    | none =>
      cases h3 : strContains (trimStr t) ".html" with
      | true => exact ⟨Or.inr (Or.inr (Or.inl ⟨rfl, rfl, rfl, rfl⟩)), Or.inl rfl⟩
      | false => exact ⟨Or.inr (Or.inr (Or.inr ⟨rfl, rfl, rfl, rfl⟩)), Or.inl rfl⟩

/-- Claim C1 witness: a concrete branch turn ("yes" from `faqC1branch`) where
the target "2" resolves by id to `faqC1next`. -/
theorem C1_branch_resolution_total_witness :
    handleSalesFAQ faqsC1 "yes" ⟨some "1"⟩ =
      resolveTarget faqsC1 "Need more help?" "2" ⟨some "1"⟩ ∧
    handleSalesFAQ faqsC1 "yes" ⟨some "1"⟩ = (showFAQ faqC1next, ⟨some "2"⟩) :=
  ⟨(C1_branch_resolution_total faqsC1 "yes" ⟨some "1"⟩ "1" faqC1branch
      ⟨"Need more help?", some ⟨some "2", some "3"⟩⟩ ⟨some "2", some "3"⟩ "2"
      rfl (by decide) rfl rfl (by decide) (by decide)).1,
    by decide⟩

/-- Claim C1 counterexample: the claim as stated quantifies over every reply.
With the corpus `faqsC1`, the session on the branch record and the
unclassified reply "maybe", the v15.1c handler falls through to fresh
matching and returns the no-match fallback — neither an `Advance` (the
rendering of a corpus record or an external link) nor a `Reprompt` with the
branch question. -/
theorem C1_branch_resolution_total_counterexample :
    claimC1Outcome faqsC1 "Need more help?"
      (handleSalesFAQ faqsC1 "maybe" ⟨some "1"⟩).1 = false ∧
    (handleSalesFAQ faqsC1 "maybe" ⟨some "1"⟩).1 = Reply.text noMatchText := by
  constructor <;> decide

/-- Claim C2 (amended): in the v15.1c weighted-search path every entry of
`findSalesMatches` carries the score of its record and that score is at
least 6, and every option of a disambiguation reply is the title of such an
entry; hence a record scoring below 6 appears in neither the scored
auto-select nor the disambiguation list. (The unamended claim also excluded
such records from every `AutoSelect`; the exact-normalised-title
short-circuit can still auto-select a record scoring below 6, see the
counterexample.) -/
theorem C2_score_threshold (faqs : List Faq) (msg : String) :
    (∀ f sc, (f, sc) ∈ findSalesMatches faqs msg →
      6 ≤ sc ∧ sc = scoreFaq f (lowTrim msg)) ∧
    (∀ (s : Session) (intro : String) (opts : List OptionItem) (o : OptionItem),
      (handleSalesFAQ faqs msg s).1 = Reply.options intro opts → o ∈ opts →
      ∃ g n, (g, n) ∈ findSalesMatches faqs msg ∧ 6 ≤ n ∧ o.label = g.title) := by
  refine ⟨fun f sc h => mem_findSalesMatches h, ?_⟩
  intro s intro opts o hrep ho
  obtain ⟨-, hopts, -⟩ := handler_options_inv hrep
  subst hopts
  rw [List.mem_map] at ho
  obtain ⟨p, hp, rfl⟩ := ho
  obtain ⟨i, x⟩ := p
  obtain ⟨hlt, hx⟩ := List.mem_enum hp
  have hx8 : x ∈ (findSalesMatches faqs msg).take 8 := by
    rw [hx]
    exact List.getElem_mem hlt
  have hxm : x ∈ findSalesMatches faqs msg := List.mem_of_mem_take hx8
  obtain ⟨g, n⟩ := x
  exact ⟨g, n, hxm, (mem_findSalesMatches hxm).1, rfl⟩

/-- Claim C2 counterexample: `faqDotted` (title "a.b.c") scores 0 against the
query "abc", yet the v15.1c handler auto-selects it (rendering it and setting
`currentId`) through the exact-normalised-title short-circuit, so a record
with score below 6 is not excluded from `AutoSelect` results. -/
theorem C2_score_threshold_counterexample :
    scoreFaq faqDotted (lowTrim "abc") = 0 ∧
    handleSalesFAQ [faqDotted] "abc" ⟨none⟩ = (showFAQ faqDotted, ⟨some "9"⟩) := by
  constructor <;> decide

/-- Claim C2 witness: the entry `(faqVoucher, 12)` of the weighted search for
"voucher setup" indeed clears the threshold and carries its score. -/
theorem C2_score_threshold_witness :
    6 ≤ 12 ∧ 12 = scoreFaq faqVoucher (lowTrim "voucher setup") :=
  (C2_score_threshold faqsC4 "voucher setup").1 faqVoucher 12 (by decide)

/-- Claim C3: in the v15.1c handler, when the session has no current record
and the normalised title of some record (lowercased, punctuation stripped,
trimmed) equals the normalised query, the handler returns `AutoSelect` of
such a record — rendering it and setting `currentId` to its id — regardless
of any scoring, which is never reached. -/
theorem C3_exact_title_priority (faqs : List Faq) (msg : String) (s : Session)
    (hs : s.currentId = none)
    (hex : ∃ f ∈ faqs, normalise f.title = normalise (lowTrim msg)) :
    ∃ r ∈ faqs, normalise r.title = normalise (lowTrim msg) ∧
      handleSalesFAQ faqs msg s = (showFAQ r, ⟨some r.id⟩) := by
  have hb : branchStep faqs (lowTrim msg) s = none := by
    unfold branchStep
    rw [hs]
  have hsome : (faqs.find? (fun f => normalise f.title == normalise (lowTrim msg))).isSome := by
    rw [List.find?_isSome]
    obtain ⟨f, hf, he⟩ := hex
    exact ⟨f, hf, by simpa using he⟩
  obtain ⟨r, hr⟩ := Option.isSome_iff_exists.mp hsome
  refine ⟨r, List.mem_of_find?_eq_some hr, by simpa using List.find?_some hr, ?_⟩
  unfold handleSalesFAQ
  rw [hb]
  unfold freshStep
  rw [hr]

/-- Claim C3 witness: the punctuated query "pos hardware!" normalises to the
title of `faqHardware` and auto-selects it. -/
theorem C3_exact_title_priority_witness :
    handleSalesFAQ [faqHardware] "pos hardware!" ⟨none⟩ =
      (showFAQ faqHardware, ⟨some "7"⟩) ∧
    normalise faqHardware.title = normalise (lowTrim "pos hardware!") := by
  have h := C3_exact_title_priority [faqHardware] "pos hardware!" ⟨none⟩ rfl
    ⟨faqHardware, by decide, by decide⟩
  obtain ⟨r, hmem, hnorm, hrun⟩ := h
  rw [List.mem_singleton] at hmem
  subst hmem
  exact ⟨hrun, hnorm⟩

/-- Claim C4: in the v15.1c handler, on a fresh turn with no exact title
match, when at least two records clear the threshold and the top entry
satisfies `top/second ≥ 1.9` (modelled exactly as `19*second ≤ 10*top`) or
`top ≥ 12`, the handler auto-selects the top-scoring entry instead of
presenting a disambiguation list, and the score of the top entry bounds every
retained score. -/
theorem C4_high_confidence_autoselect (faqs : List Faq) (msg : String) (s : Session)
    (a b : Faq × Nat) (rest : List (Faq × Nat))
    (hs : s.currentId = none)
    (hex : faqs.find? (fun f => normalise f.title == normalise (lowTrim msg)) = none)
    (hm : findSalesMatches faqs msg = a :: b :: rest)
    (hc : 19 * b.2 ≤ 10 * a.2 ∨ 12 ≤ a.2) :
    handleSalesFAQ faqs msg s = (showFAQ a.1, ⟨some a.1.id⟩) ∧
      ∀ x ∈ findSalesMatches faqs msg, x.2 ≤ a.2 := by
  have hb : branchStep faqs (lowTrim msg) s = none := by
    unfold branchStep
    rw [hs]
  constructor
  · unfold handleSalesFAQ
    rw [hb]
    unfold freshStep
    rw [hex]
    unfold scoredStep
    rw [hm]
    show (if 19 * b.2 ≤ 10 * a.2 ∨ 12 ≤ a.2 then (showFAQ a.1, (⟨some a.1.id⟩ : Session))
      else (Reply.options optionsIntro (((a :: b :: rest).take 8).enum.map
        (fun p => ⟨p.2.1.title, p.1 + 1⟩)), s)) = (showFAQ a.1, ⟨some a.1.id⟩)
    rw [if_pos hc]
  · intro x hx
    have hp := pairwise_findSalesMatches faqs msg
    rw [hm] at hp hx
    rcases List.mem_cons.mp hx with rfl | hx'
    · exact le_refl _
    · exact (List.pairwise_cons.mp hp).1 x hx'

/-- Claim C4 witness: for "voucher setup" the corpus `faqsC4` scores 12 and 6
(ratio 2.0 ≥ 1.9, and 12 ≥ 12), and the score-12 record `faqVoucher` is
auto-selected. -/
theorem C4_high_confidence_autoselect_witness :
    handleSalesFAQ faqsC4 "voucher setup" ⟨none⟩ = (showFAQ faqVoucher, ⟨some "10"⟩) ∧
      (19 * 6 ≤ 10 * 12 ∨ (12 : Nat) ≤ 12) :=
  ⟨(C4_high_confidence_autoselect faqsC4 "voucher setup" ⟨none⟩ (faqVoucher, 12)
      (faqPrinterSetup, 6) [] rfl (by decide) (by decide) (by decide)).1,
    by decide⟩

/-- Claim C5: the v13.0 lead-capture continuation only moves forward through
name → company → email → comments; at the email step an input failing the
`local@domain.tld` pattern leaves the step (and the stored lead) unchanged
and re-prompts, and a valid email advances the flow to the comments step. -/
theorem C5_lead_capture_linearity (s : LeadSession) (msg : String) :
    stepRank s.step ≤ stepRank (continueLeadCapture s msg).1.step ∧
    (s.step = LeadStep.name → (continueLeadCapture s msg).1.step = LeadStep.company) ∧
    (s.step = LeadStep.company → (continueLeadCapture s msg).1.step = LeadStep.email) ∧
    (s.step = LeadStep.email → isValidEmail msg = false →
      continueLeadCapture s msg = (s, LCResult.prompt invalidEmailText)) ∧
    (s.step = LeadStep.email → isValidEmail msg = true →
      (continueLeadCapture s msg).1.step = LeadStep.comments ∧
      (continueLeadCapture s msg).2 = LCResult.prompt commentsPrompt) := by
  obtain ⟨st, lead⟩ := s
  cases st with
  | none => simp [continueLeadCapture, stepRank]
  | name => simp [continueLeadCapture, stepRank]
  | company => simp [continueLeadCapture, stepRank]
  | email =>
    cases hv : isValidEmail msg with
    | false => simp [continueLeadCapture, stepRank, hv]
    | true => simp [continueLeadCapture, stepRank, hv]
  | comments => simp [continueLeadCapture, stepRank]

/-- Claim C5 witness: at the email step, "not-an-email" re-prompts without
advancing, while "a@b.com" advances to the comments step. -/
theorem C5_lead_capture_linearity_witness :
    continueLeadCapture sessEmailStep "not-an-email" =
      (sessEmailStep, LCResult.prompt invalidEmailText) ∧
    (continueLeadCapture sessEmailStep "a@b.com").1.step = LeadStep.comments :=
  ⟨(C5_lead_capture_linearity sessEmailStep "not-an-email").2.2.2.1 rfl (by decide),
    ((C5_lead_capture_linearity sessEmailStep "a@b.com").2.2.2.2 rfl (by decide)).1⟩

/-- Claim C6 (amended): in the v14.6 handler (`part_006`), when the current
record has `next.options` and the reply contains neither "yes" nor "no", the
handler returns the branch question (suffixed with " (Yes or No)") and
leaves the session untouched. (The unamended claim targeted the v15.x
handlers, which instead fall through to fresh matching on an unclassified
reply, see the counterexample.) -/
theorem C6_unclassified_reprompt (faqs : List Faq) (msg : String) (s : Session146)
    (cid : String) (cur : Faq) (nb : NextBranch) (opts : BranchOpts)
    (hcid : s.currentId = some cid)
    (hcur : faqs.find? (fun f => f.id == cid) = some cur)
    (hnext : cur.next = some nb)
    (hopts : nb.options = some opts)
    (hyes : strContains (lowTrim msg) "yes" = false)
    (hno : strContains (lowTrim msg) "no" = false) :
    handleSalesFAQ146 faqs msg s = (some (Reply146.text (repromptText nb.question)), s) := by
  unfold handleSalesFAQ146
  simp only [hcid, hcur, hnext, hopts, hyes, hno, Bool.false_eq_true, if_false]

/-- Claim C6 witness: the reply "maybe" at the branch of `faqC6branch`
re-prompts with the branch question and leaves the v14.6 session unchanged. -/
theorem C6_unclassified_reprompt_witness :
    handleSalesFAQ146 [faqC6branch] "maybe" sessC6v146 =
      (some (Reply146.text (repromptText "Need help with setup?")), sessC6v146) :=
  C6_unclassified_reprompt [faqC6branch] "maybe" sessC6v146 "1" faqC6branch
    ⟨"Need help with setup?", some ⟨some "2", some "3"⟩⟩ ⟨some "2", some "3"⟩
    rfl (by decide) rfl rfl (by decide) (by decide)

/-- Claim C6 counterexample: on the v15.2 handler cited by the claim, the
unclassified reply "maybe" at the same branch does not re-prompt: it falls
through to fresh matching and returns the no-match fallback, whose text does
not even contain the branch question. -/
theorem C6_unclassified_reprompt_counterexample :
    (handleSalesFAQ152 [faqC6branch] "maybe" "sid" storeC6).1 = Reply152.text noMatchText ∧
    strContains noMatchText "Need help with setup?" = false ∧
    Reply152.text noMatchText ≠ Reply152.text (repromptText "Need help with setup?") := by
  refine ⟨by decide, by decide, by decide⟩

/-- Claim C7: in the v15.2 handler the empty-query guard of
`findSalesMatches` was lost when the weighted search was inlined, so an
empty or whitespace-only message gives every record the `+6` phrase bonus
(`"".includes` is true) and with two plain records the handler returns a
disambiguation menu instead of the no-match reply; the guarded v15.1c
`findSalesMatches` returns no matches for the same query. -/
theorem C7_empty_query_disambiguates :
    (handleSalesFAQ152 faqsC7 "" "sid" storeIdle).1 =
      Reply152.options optionsIntro ["Alpha Beta", "Beta Gamma"] ∧
    (handleSalesFAQ152 faqsC7 "   " "sid" storeIdle).1 =
      Reply152.options optionsIntro ["Alpha Beta", "Beta Gamma"] ∧
    findSalesMatches faqsC7 "" = [] := by
  refine ⟨by decide, by decide, by decide⟩

/-- Claim C8: whenever the v15.1c handler returns a disambiguation reply,
the options list has at most 8 entries and is exactly the first 8 entries of
the weighted search, whose scores are in descending order with corpus order
preserved among entries of equal score (the per-score subsequences of the
sorted list equal those of the corpus-ordered candidate list). -/
theorem C8_disambiguation_bound (faqs : List Faq) (msg : String) (s : Session)
    (intro : String) (opts : List OptionItem)
    (h : (handleSalesFAQ faqs msg s).1 = Reply.options intro opts) :
    opts.length ≤ 8 ∧
    opts = ((findSalesMatches faqs msg).take 8).enum.map
      (fun p => ⟨p.2.1.title, p.1 + 1⟩) ∧
    (findSalesMatches faqs msg).Pairwise (fun a b => b.2 ≤ a.2) ∧
    ∀ v, (findSalesMatches faqs msg).filter (fun r => r.2 == v) =
      (scoredCandidates faqs (lowTrim msg)).filter (fun r => r.2 == v) := by
  obtain ⟨hi, ho, hq⟩ := handler_options_inv h
  refine ⟨?_, ho, pairwise_findSalesMatches faqs msg, ?_⟩
  · rw [ho, List.length_map, List.enum_length, List.length_take]
    exact min_le_left _ _
  · intro v
    rw [findSalesMatches_of_ne_empty hq, filter_sortScoredDesc]

/-- Claim C8 witness: the query "setup guide" against `faqsC8` produces a
two-entry disambiguation list, within the bound of 8. -/
theorem C8_disambiguation_bound_witness :
    (handleSalesFAQ faqsC8 "setup guide" ⟨none⟩).1 =
      Reply.options optionsIntro [⟨"Alpha", 1⟩, ⟨"Beta", 2⟩] ∧
    ([(⟨"Alpha", 1⟩ : OptionItem), ⟨"Beta", 2⟩] : List OptionItem).length ≤ 8 :=
  ⟨by decide,
    (C8_disambiguation_bound faqsC8 "setup guide" ⟨none⟩ optionsIntro
      [⟨"Alpha", 1⟩, ⟨"Beta", 2⟩] (by decide)).1⟩

/-- Claim C9: the v13.2 support agent takes no session identifier and
operates on `sessions[Object.keys(sessions)[0]]`: handling the message
"printer help" (which matches two support FAQs) mutates the session stored
under the first-inserted key "1.2.3.4" — setting its `awaitingFaqChoice`
and `lastFaqList` — no matter which client sent the request, contradicting
per-session isolation. -/
theorem C9_cross_session_mutation :
    handleSupportAgent132 supportFaqsC9 "printer help" storeC9 =
      (some (supportListText supportMatchesC9),
        [("1.2.3.4", ⟨true, some supportMatchesC9⟩), ("5.6.7.8", ⟨false, none⟩)]) ∧
    (handleSupportAgent132 supportFaqsC9 "printer help" storeC9).2.lookup "1.2.3.4" ≠
      storeC9.lookup "1.2.3.4" := by
  constructor <;> decide

/-- Claim C10: in the v15.1c handler, when a classified branch reply selects
a target that matches no record by id or title but contains ".html", the
handler returns only the external-link reply and returns the session
entirely unchanged — the same branch still governs the next turn. -/
theorem C10_external_link_preserves_session (faqs : List Faq) (msg : String)
    (s : Session) (cid : String) (cur : Faq) (nb : NextBranch) (opts : BranchOpts)
    (t : String)
    (hcid : s.currentId = some cid)
    (hcur : faqs.find? (fun f => f.id == cid) = some cur)
    (hnext : cur.next = some nb)
    (hopts : nb.options = some opts)
    (ht : branchTarget (lowTrim msg) opts = some t)
    (hne : (t == "") = false)
    (hid : faqs.find? (fun f => f.id == trimStr t) = none)
    (htitle : faqs.find? (fun f => trimStr (lowerStr f.title) == lowerStr (trimStr t)) = none)
    (hhtml : strContains (trimStr t) ".html" = true) :
    handleSalesFAQ faqs msg s = (Reply.text (branchLinkText (trimStr t)), s) := by
  have hb : branchStep faqs (lowTrim msg) s = some (resolveTarget faqs nb.question t s) := by
    unfold branchStep
    simp only [hcid, hcur, hnext, hopts, ht, hne, Bool.false_eq_true, if_false]
  unfold handleSalesFAQ
  rw [hb]
  unfold resolveTarget
  rw [hid, htitle, hhtml]
  rfl

/-- Claim C10 witness: replying "yes" at `faqC10` resolves to the external
URL "/pricing.html"; the reply is the link and the session still points at
record "1". -/
theorem C10_external_link_preserves_session_witness :
    handleSalesFAQ [faqC10] "yes" ⟨some "1"⟩ =
      (Reply.text (branchLinkText "/pricing.html"), ⟨some "1"⟩) := by
  have h := C10_external_link_preserves_session [faqC10] "yes" ⟨some "1"⟩ "1" faqC10
    ⟨"See the pricing page?", some ⟨some "/pricing.html", some "3"⟩⟩
    ⟨some "/pricing.html", some "3"⟩ "/pricing.html"
    rfl (by decide) rfl rfl (by decide) (by decide) (by decide) (by decide) (by decide)
  exact h
